import Mathlib

set_option autoImplicit false
set_option maxRecDepth 8000

/-
Verification of the text-run-to-record reconstruction pipeline of getinfo.ts
(Caltrans-Cycle-6-ATP repository, election-canvass use case).

Modelling conventions for the shallow embedding:
  * JavaScript numbers are modelled by the inductive JSNum: NaN, the two
    infinities, and finite values as exact rationals.  The negative-zero
    distinction of IEEE doubles is not represented (a finite zero is the
    rational 0); no value in this program depends on it.
  * JavaScript strings are Lean strings; character indexing (s[i]) is
    modelled by charAt below.  All data handled by the program is ASCII,
    where UTF-16 code-unit indexing and codepoint indexing agree.
  * Thrown exceptions are modelled with Except Err; an error value aborts
    the surrounding computation exactly as a thrown exception aborts the
    extraction run.
  * The PDF text-extraction collaborator is modelled as a function from a
    page number to that page's ordered list of content items.
-/

namespace Getinfo

/-- The City union type of getinfo.ts. -/
inductive City where
  | unincorporated
  | unincorporatedD1
  | unincorporatedD2
  | unincorporatedD3
  | unincorporatedD4
  | unincorporatedD5
  | santaCruz
  | capitola
  | watsonville
  | scottsValley
  | bonnyDoon
deriving DecidableEq

/-- The District union type of getinfo.ts. -/
inductive District where
  | d1
  | d2
  | d3
  | d4
  | d5
deriving DecidableEq

/-- The exceptions thrown by getinfo.ts: the Invalid-precinct error of
assignCity, the Invalid-district-code error of assignDistrict, and the
Record-incorrect-length error of assignRecordFromArray. -/
inductive Err where
  | invalidPrecinct
  | invalidDistrict
  | wrongLength
deriving DecidableEq

def PRECINCT_COUNTY_DIGIT : Nat := 0

def PRECINCT_CITY_DIGIT : Nat := 1

/-- JavaScript string indexing s[i]: the character at position i, or
undefined (none) past the end of the string. -/
def charAt (s : String) (i : Nat) : Option Char := s.data[i]?

/-- The digitToCity lookup object of getinfo.ts; none models a key miss. -/
def digitToCity (digit : Char) : Option City :=
  if digit = '0' then some City.unincorporated
  else if digit = '1' then some City.santaCruz
  else if digit = '2' then some City.capitola
  else if digit = '3' then some City.watsonville
  else if digit = '4' then some City.scottsValley
  else none

/-- assignCity of getinfo.ts.  The guard (falsy string, length below 1, or
city digit not among the keys of digitToCity) collapses to: no character at
the city index, or a character outside the key set; both throw the
Invalid-precinct error.  The commented-out Bonny Doon switch of the source
is omitted, as it is in the source. -/
def assignCity (precinct : String) : Except Err City :=
  match charAt precinct PRECINCT_CITY_DIGIT with
  | none => Except.error Err.invalidPrecinct
  | some cityDigit =>
    match digitToCity cityDigit with
    | none => Except.error Err.invalidPrecinct
    | some city =>
      if city = City.unincorporated then
        match charAt precinct PRECINCT_COUNTY_DIGIT with
        | some countyDigit =>
          if countyDigit = '1' then Except.ok City.unincorporatedD1
          else if countyDigit = '2' then Except.ok City.unincorporatedD2
          else if countyDigit = '3' then Except.ok City.unincorporatedD3
          else if countyDigit = '4' then Except.ok City.unincorporatedD4
          else if countyDigit = '5' then Except.ok City.unincorporatedD5
          else Except.ok City.unincorporated
        | none => Except.ok City.unincorporated
      else Except.ok city

/-- assignDistrict of getinfo.ts: keys on precinct[PRECINCT_COUNTY_DIGIT],
the first character of the identifier. -/
def assignDistrict (precinct : String) : Except Err District :=
  match charAt precinct PRECINCT_COUNTY_DIGIT with
  | some c =>
    if c = '1' then Except.ok District.d1
    else if c = '2' then Except.ok District.d2
    else if c = '3' then Except.ok District.d3
    else if c = '4' then Except.ok District.d4
    else if c = '5' then Except.ok District.d5
    else Except.error Err.invalidDistrict
  | none => Except.error Err.invalidDistrict

/-- A JavaScript number: NaN, an infinity, or a finite value modelled as an
exact rational. -/
inductive JSNum where
  | nan
  | inf
  | ninf
  | fin (q : ℚ)
deriving DecidableEq

/-- JavaScript addition on numbers. -/
def jsAdd : JSNum → JSNum → JSNum
  | JSNum.nan, _ => JSNum.nan
  | _, JSNum.nan => JSNum.nan
  | JSNum.inf, JSNum.ninf => JSNum.nan
  | JSNum.ninf, JSNum.inf => JSNum.nan
  | JSNum.inf, _ => JSNum.inf
  | _, JSNum.inf => JSNum.inf
  | JSNum.ninf, _ => JSNum.ninf
  | _, JSNum.ninf => JSNum.ninf
  | JSNum.fin a, JSNum.fin b => JSNum.fin (a + b)

/-- JavaScript division on numbers (the sign of a zero is not tracked, so a
finite dividend over a zero divisor takes the positive-zero branch). -/
def jsDiv : JSNum → JSNum → JSNum
  | JSNum.nan, _ => JSNum.nan
  | _, JSNum.nan => JSNum.nan
  | JSNum.inf, JSNum.inf => JSNum.nan
  | JSNum.inf, JSNum.ninf => JSNum.nan
  | JSNum.ninf, JSNum.inf => JSNum.nan
  | JSNum.ninf, JSNum.ninf => JSNum.nan
  | JSNum.inf, JSNum.fin b => if b < 0 then JSNum.ninf else JSNum.inf
  | JSNum.ninf, JSNum.fin b => if b < 0 then JSNum.inf else JSNum.ninf
  | JSNum.fin _, JSNum.inf => JSNum.fin 0
  | JSNum.fin _, JSNum.ninf => JSNum.fin 0
  | JSNum.fin a, JSNum.fin b =>
    if b = 0 then
      if a = 0 then JSNum.nan else if 0 < a then JSNum.inf else JSNum.ninf
    else JSNum.fin (a / b)

/-- JavaScript strict equality on numbers: NaN is equal to nothing,
including itself. -/
def jsEqNum : JSNum → JSNum → Bool
  | JSNum.fin a, JSNum.fin b => a = b
  | JSNum.inf, JSNum.inf => true
  | JSNum.ninf, JSNum.ninf => true
  | _, _ => false

def decDigitVal (c : Char) : Nat := c.toNat - 48

/-- Value of a list of decimal digits, most significant first. -/
def decValue (ds : List Char) : Nat :=
  ds.foldl (fun acc c => 10 * acc + decDigitVal c) 0

/-- Hexadecimal digit value, for the 0x prefix branch of parseInt. -/
def hexDigit? (c : Char) : Option Nat :=
  if c.isDigit then some (c.toNat - 48)
  else if 'a' ≤ c ∧ c ≤ 'f' then some (c.toNat - 87)
  else if 'A' ≤ c ∧ c ≤ 'F' then some (c.toNat - 55)
  else none

def hexValue (ds : List Char) : Nat :=
  ds.foldl (fun acc c => 16 * acc + (hexDigit? c).getD 0) 0

/-- JavaScript parseInt on a string with no radix argument: skip leading
whitespace, read an optional sign, then either a 0x/0X-prefixed run of hex
digits or a run of decimal digits; NaN when no digit is found.  (Lean's
Char.isWhitespace covers the whitespace that occurs in this program's data;
exotic Unicode space characters are not distinguished.) -/
def parseIntStr (s : String) : JSNum :=
  let cs := s.data.dropWhile Char.isWhitespace
  let signed : Int × List Char :=
    match cs with
    | '-' :: rest => (-1, rest)
    | '+' :: rest => (1, rest)
    | _ => (1, cs)
  let sign := signed.1
  let body := signed.2
  match body with
  | '0' :: x :: rest =>
    if x = 'x' ∨ x = 'X' then
      let ds := rest.takeWhile (fun c => (hexDigit? c).isSome)
      if ds.isEmpty then JSNum.nan
      else JSNum.fin ((sign * (hexValue ds : Int) : Int) : ℚ)
    else
      let ds := body.takeWhile Char.isDigit
      JSNum.fin ((sign * (decValue ds : Int) : Int) : ℚ)
  | _ =>
    let ds := body.takeWhile Char.isDigit
    if ds.isEmpty then JSNum.nan
    else JSNum.fin ((sign * (decValue ds : Int) : Int) : ℚ)

/-- parseInt applied to a possibly-missing string, as in
parseInt(record[i]) when record[i] is undefined: ToString(undefined) is
a digit-free word, so the result is NaN. -/
def parseIntOpt : Option String → JSNum
  | some s => parseIntStr s
  | none => JSNum.nan

/-- An element of the untyped arrays fed to assignRecordFromArray: the PDF
token strings, and the number literals 0 and NaN of the synthesized repair
arrays. -/
inductive Field where
  | str (s : String)
  | num (n : JSNum)
deriving DecidableEq

/-- parseInt applied to a field value.  A string parses directly; a number
is first converted to its decimal string and reparsed, which for the
finite values of this program truncates toward zero and for NaN and the
infinities yields NaN (their string forms carry no leading digit).  Finite
values so large that JavaScript would print them in exponent notation do
not occur here. -/
def parseIntJS : Field → JSNum
  | Field.str s => parseIntStr s
  | Field.num (JSNum.fin q) => JSNum.fin ((q.num / (q.den : Int) : Int) : ℚ)
  | Field.num _ => JSNum.nan

/-- The RawRecord type of getinfo.ts.  The Method field keeps whatever
value position 1 of the array held (the TypeScript annotation is not a
runtime check), and the count fields are the parseInt results. -/
structure RawRecord where
  Precinct : String
  City : Getinfo.City
  District : Getinfo.District
  Method : Field
  registeredVoters : JSNum
  ballotsCast : JSNum
  measureCYes : JSNum
  measureCNo : JSNum
  measureDYes : JSNum
  measureDNo : JSNum
deriving DecidableEq

/-- assignRecordFromArray of getinfo.ts.  The length guard throws first;
then assignCity and assignDistrict run on record[0] (a non-string value
there has no character at the city index, so assignCity throws its
Invalid-precinct error); position 4, the turnout column, is dropped. -/
def assignRecordFromArray (record : List Field) : Except Err RawRecord :=
  if record.length ≠ 9 then Except.error Err.wrongLength
  else
    match record with
    | [f0, f1, f2, f3, _f4, f5, f6, f7, f8] =>
      match f0 with
      | Field.num _ => Except.error Err.invalidPrecinct
      | Field.str p =>
        match assignCity p with
        | Except.error e => Except.error e
        | Except.ok city =>
          match assignDistrict p with
          | Except.error e => Except.error e
          | Except.ok district =>
            Except.ok
              { Precinct := p
                City := city
                District := district
                Method := f1
                registeredVoters := parseIntJS f2
                ballotsCast := parseIntJS f3
                measureCYes := parseIntJS f5
                measureCNo := parseIntJS f6
                measureDYes := parseIntJS f7
                measureDNo := parseIntJS f8 }
    | _ => Except.error Err.wrongLength

def validMethods : List String := ["Election Day", "Vote by Mail", "Total"]

/-- A content item of a page's text stream: a text item carrying a string
and an end-of-line flag, or a marked-content item without a str property,
which the extraction loop skips. -/
inductive ContentItem where
  | text (str : String) (hasEOL : Bool)
  | marked
deriving DecidableEq

/-- True when the first five characters exist and are decimal digits. -/
def fiveDigitsAt (cs : List Char) : Bool :=
  match cs with
  | a :: b :: c :: d :: e :: _ =>
    a.isDigit && b.isDigit && c.isDigit && d.isDigit && e.isDigit
  | _ => false

/-- An unanchored search for five consecutive decimal digits, the
behaviour of matching a string against the five-digit regular expression
of getinfo.ts. -/
def hasFiveDigitRun : List Char → Bool
  | [] => false
  | c :: rest => fiveDigitsAt (c :: rest) || hasFiveDigitRun rest

def matchesFiveDigits (s : String) : Bool := hasFiveDigitRun s.data

/-- One step of the per-page grouping loop of extractRecords: skip items
without a str property, push the text onto the current record, and on an
end-of-line flag close the record, keeping it only when it has more than
2 entries and its first entry contains a five-digit run; the record buffer
is cleared after every closure. -/
def groupStep (st : List (List String) × List String) (item : ContentItem) :
    List (List String) × List String :=
  match item with
  | ContentItem.marked => st
  | ContentItem.text s hasEOL =>
    let record := st.2 ++ [s]
    if hasEOL then
      if 2 < record.length ∧ matchesFiveDigits (record.headD ("")) = true then
        (st.1 ++ [record], [])
      else (st.1, [])
    else (st.1, record)

/-- The candidate groups produced from one page's items; the buffer still
open when the page ends is discarded with the page. -/
def pageRecords (items : List ContentItem) : List (List String) :=
  (items.foldl groupStep ([], [])).1

/-- The page loop bounds of extractRecords: pages 131 through 136. -/
def pageNums : List Nat := [131, 132, 133, 134, 135, 136]

/-- The page loop of extractRecords: candidate groups of pages 131-136,
accumulated in page order with a fresh buffer per page. -/
def extractRawGroups (doc : Nat → List ContentItem) : List (List String) :=
  pageNums.foldl
    (fun records pageNum => ((doc pageNum).foldl groupStep (records, [])).1) []

/-- The rows of the manuallyFixedRecords table of getinfo.ts. -/
def manualFixRows : List (List String) :=
  [ ["20470", "Vote by Mail", "41", "5", "12.20 %", "5", "0", "4", "1"],
    ["20470", "Total", "41", "5", "12.20 %", "5", "0", "4", "1"],
    ["23410", "Election Day", "193", "2", "1.04 %", "2", "0", "0", "2"],
    ["23660", "Election Day", "1", "1", "100.00 %", "1", "0", "1", "0"],
    ["23660", "Total", "1", "1", "100.00 %", "1", "0", "1", "0"],
    ["40010", "Election Day", "3", "1", "33.33 %", "0", "1", "0", "1"],
    ["40010", "Vote by Mail", "3", "1", "33.33 %", "1", "0", "1", "0"],
    ["40270", "Election Day", "16", "1", "6.25 %", "1", "0", "0", "1"],
    ["43510", "Election Day", "1701", "7", "0.41 %", "5", "1", "0", "6"],
    ["50111", "Election Day", "672", "13", "1.93 %", "8", "5", "0", "13"] ]

/-- The correction table: manualFixRows.map(assignRecordFromArray).  Every
row assembles without error (manuallyFixedRecords_ok below), so the
error-default empty list is never taken. -/
def manuallyFixedRecords : List RawRecord :=
  (manualFixRows.mapM
      (fun row => assignRecordFromArray (row.map Field.str))).toOption.getD []

/-- The match predicate of the fixedRecord lookup: strict equality of the
identifier, the method, and the parseInt images of fields 2 and 3 against
the correction entry.  A missing field compares unequal (undefined never
strictly equals a string, and parseInt of a missing field is NaN, which
strictly equals nothing). -/
def matchesFixed (record : List String) (fixedRecord : RawRecord) : Bool :=
  decide (record[0]? = some fixedRecord.Precinct) &&
  decide ((record[1]?).map Field.str = some fixedRecord.Method) &&
  jsEqNum (parseIntOpt record[2]?) fixedRecord.registeredVoters &&
  jsEqNum (parseIntOpt record[3]?) fixedRecord.ballotsCast

/-- The union RawRecord-or-raw-string-array flowing out of the repair
rules of extractRecords. -/
inductive Entity where
  | record (r : RawRecord)
  | rawArray (fields : List String)
deriving DecidableEq

/-- The Array.isArray test used to tell an unresolved raw array from a
typed record. -/
def Entity.isArr : Entity → Bool
  | Entity.record _ => false
  | Entity.rawArray _ => true

/-- The blank-field strip of extractRecords: the first map over records,
dropping fields strictly equal to the empty string or to a single
space. -/
def stripRecord (record : List String) : List String :=
  record.filter (fun field => field != "" && field != " ")

/-- The method test of the repair rules: validMethods.includes(record[1]),
false when the field is missing. -/
def methodRecognized (record : List String) : Bool :=
  match record[1]? with
  | some m => validMethods.contains m
  | none => false

/-- The repair rules of extractRecords, applied to one blank-stripped
candidate group: full-length groups assemble directly; an unrecognized
method leaves the raw array; a length-4 group with zero fields 2 and 3 is
an uncollected precinct, rebuilt with zero counts, NaN measure fields and
a forced 0.00-percent turnout; a length-5 group with a 0.00-percent field
is a zero-turnout precinct, rebuilt with zero measure counts; otherwise
the correction table is searched, and on a miss the raw array passes
through (after the console warning).  The defaults backing record[0] and
record[1] below are never consulted: each branch's guards force those
positions to exist. -/
def applyRules (record : List String) : Except Err Entity :=
  if record.length = 9 then
    (assignRecordFromArray (record.map Field.str)).map Entity.record
  else if methodRecognized record = false then
    Except.ok (Entity.rawArray record)
  else if record.length = 4 ∧ record[2]? = some ("0") ∧ record[3]? = some ("0") then
    (assignRecordFromArray
        [ Field.str (record.headD ("")),
          Field.str ((record[1]?).getD ("")),
          Field.num (JSNum.fin 0),
          Field.num (JSNum.fin 0),
          Field.str ("0.00 %"),
          Field.num JSNum.nan,
          Field.num JSNum.nan,
          Field.num JSNum.nan,
          Field.num JSNum.nan ]).map Entity.record
  else if record.length = 5 ∧ record[4]? = some ("0.00 %") then
    (assignRecordFromArray
        [ Field.str (record.headD ("")),
          Field.str ((record[1]?).getD ("")),
          Field.str ((record[2]?).getD ("")),
          Field.str ((record[3]?).getD ("")),
          Field.str ("0.00 %"),
          Field.num (JSNum.fin 0),
          Field.num (JSNum.fin 0),
          Field.num (JSNum.fin 0),
          Field.num (JSNum.fin 0) ]).map Entity.record
  else
    match manuallyFixedRecords.find? (matchesFixed record) with
    | some fixedRecord => Except.ok (Entity.record fixedRecord)
    | none => Except.ok (Entity.rawArray record)

/-- extractRecords of getinfo.ts, from the grouped pages to the returned
collection: strip blanks, apply the repair rules, then drop everything
that is still a raw array. -/
def extractRecordsEntities (doc : Nat → List ContentItem) :
    Except Err (List Entity) :=
  match ((extractRawGroups doc).map stripRecord).mapM applyRules with
  | Except.error e => Except.error e
  | Except.ok cleanerRecords =>
    Except.ok (cleanerRecords.filter (fun record => !record.isArr))

/-- The FrameRecord type of getinfo.ts; the method columns and the two
ratio columns may be absent (undefined). -/
structure FrameRecord where
  Precinct : String
  City : Getinfo.City
  District : Getinfo.District
  registeredVoters : JSNum
  ballotsCast : JSNum
  yesVoteByMail : Option JSNum
  yesElectionDay : Option JSNum
  yesTotal : Option JSNum
  noVoteByMail : Option JSNum
  noElectionDay : Option JSNum
  noTotal : Option JSNum
  pctNo : Option JSNum
  pctYes : Option JSNum
deriving DecidableEq

/-- The Partial-FrameRecord object built per raw record and measure: the
five base columns always present, and at most one method column pair. -/
structure SplitRecord where
  Precinct : String
  registeredVoters : JSNum
  ballotsCast : JSNum
  City : Getinfo.City
  District : Getinfo.District
  yesVoteByMail : Option JSNum := none
  yesElectionDay : Option JSNum := none
  yesTotal : Option JSNum := none
  noVoteByMail : Option JSNum := none
  noElectionDay : Option JSNum := none
  noTotal : Option JSNum := none
deriving DecidableEq

/-- The splitDRecord object of the pivot pass: base columns plus the
Measure D pair selected by the record's method; a method outside the
switch sets no method column. -/
def splitDRecord (record : RawRecord) : SplitRecord :=
  let base : SplitRecord :=
    { Precinct := record.Precinct
      registeredVoters := record.registeredVoters
      ballotsCast := record.ballotsCast
      City := record.City
      District := record.District }
  if record.Method = Field.str ("Election Day") then
    { base with
        yesElectionDay := some record.measureDYes
        noElectionDay := some record.measureDNo }
  else if record.Method = Field.str ("Vote by Mail") then
    { base with
        yesVoteByMail := some record.measureDYes
        noVoteByMail := some record.measureDNo }
  else if record.Method = Field.str ("Total") then
    { base with
        yesTotal := some record.measureDYes
        noTotal := some record.measureDNo }
  else base

/-- The splitCRecord object of the pivot pass, carrying the Measure C
counts. -/
def splitCRecord (record : RawRecord) : SplitRecord :=
  let base : SplitRecord :=
    { Precinct := record.Precinct
      registeredVoters := record.registeredVoters
      ballotsCast := record.ballotsCast
      City := record.City
      District := record.District }
  if record.Method = Field.str ("Election Day") then
    { base with
        yesElectionDay := some record.measureCYes
        noElectionDay := some record.measureCNo }
  else if record.Method = Field.str ("Vote by Mail") then
    { base with
        yesVoteByMail := some record.measureCYes
        noVoteByMail := some record.measureCNo }
  else if record.Method = Field.str ("Total") then
    { base with
        yesTotal := some record.measureCYes
        noTotal := some record.measureCNo }
  else base

/-- Field-level Object.assign semantics: a property the split record owns
overwrites, an absent one falls back to the old frame record. -/
def mergeField (new old : Option JSNum) : Option JSNum :=
  match new with
  | some v => some v
  | none => old

/-- Object.assign({}, frame[key], split): the split record's base columns
and present method columns overwrite; everything else, including the two
ratio columns, survives from the old frame record when there is one. -/
def mergePartial (old : Option FrameRecord) (p : SplitRecord) : FrameRecord :=
  { Precinct := p.Precinct
    City := p.City
    District := p.District
    registeredVoters := p.registeredVoters
    ballotsCast := p.ballotsCast
    yesVoteByMail := mergeField p.yesVoteByMail (old.bind FrameRecord.yesVoteByMail)
    yesElectionDay := mergeField p.yesElectionDay (old.bind FrameRecord.yesElectionDay)
    yesTotal := mergeField p.yesTotal (old.bind FrameRecord.yesTotal)
    noVoteByMail := mergeField p.noVoteByMail (old.bind FrameRecord.noVoteByMail)
    noElectionDay := mergeField p.noElectionDay (old.bind FrameRecord.noElectionDay)
    noTotal := mergeField p.noTotal (old.bind FrameRecord.noTotal)
    pctNo := old.bind FrameRecord.pctNo
    pctYes := old.bind FrameRecord.pctYes }

/-- A Frame: the keyed object mapping a precinct identifier to its frame
record. -/
def Frame : Type := String → Option FrameRecord

def emptyFrame : Frame := fun _ => none

def frameInsert (f : Frame) (key : String) (r : FrameRecord) : Frame :=
  fun k => if k = key then some r else f k

/-- One step of the forEach pivot pass: raw arrays are skipped; a record
merges its Measure D split into the first frame and its Measure C split
into the second, keyed by precinct. -/
def pivotStep (st : Frame × Frame) (e : Entity) : Frame × Frame :=
  match e with
  | Entity.rawArray _ => st
  | Entity.record record =>
    (frameInsert st.1 record.Precinct
        (mergePartial (st.1 record.Precinct) (splitDRecord record)),
      frameInsert st.2 record.Precinct
        (mergePartial (st.2 record.Precinct) (splitCRecord record)))

/-- Coercion of a possibly-absent column to a number for arithmetic:
undefined converts to NaN. -/
def fieldNum (o : Option JSNum) : JSNum := o.getD JSNum.nan

/-- The ratio loop over a frame: every record gains the two derived ratio
columns, each total divided by the sum of the two totals. -/
def applyPercents (f : Frame) : Frame := fun k =>
  (f k).map (fun record =>
    let denom := jsAdd (fieldNum record.noTotal) (fieldNum record.yesTotal)
    { record with
        pctNo := some (jsDiv (fieldNum record.noTotal) denom)
        pctYes := some (jsDiv (fieldNum record.yesTotal) denom) })

/-- The whole reshape/pivot stage: fold the pivot pass over the record
list starting from two empty frames (Measure D first, Measure C second),
then run the ratio loops. -/
def measureFrames (records : List Entity) : Frame × Frame :=
  let folded := records.foldl pivotStep (emptyFrame, emptyFrame)
  (applyPercents folded.1, applyPercents folded.2)

/-- The 9-entry array synthesized by the unreported-precinct repair rule
(rule 3) of extractRecords. -/
def unreportedRow (r0 r1 : String) : List Field :=
  [ Field.str r0, Field.str r1, Field.num (JSNum.fin 0), Field.num (JSNum.fin 0),
    Field.str ("0.00 %"), Field.num JSNum.nan, Field.num JSNum.nan,
    Field.num JSNum.nan, Field.num JSNum.nan ]

/-- The end-of-line test on a content item: true exactly for a text item
whose hasEOL flag is set. -/
def ContentItem.isEOL : ContentItem → Bool
  | ContentItem.text _ true => true
  | _ => false

/-- The first row of the correction table, assembled. -/
def manualFixVbm20470 : RawRecord :=
  { Precinct := "20470", City := City.unincorporatedD2, District := District.d2,
    Method := Field.str ("Vote by Mail"), registeredVoters := JSNum.fin 41,
    ballotsCast := JSNum.fin 5, measureCYes := JSNum.fin 5, measureCNo := JSNum.fin 0,
    measureDYes := JSNum.fin 4, measureDNo := JSNum.fin 1 }

/-- A six-token demonstration page stream: one full canvass row for
precinct 20470, with the end-of-line flag on the last token. -/
def demoItems : List ContentItem :=
  [ ContentItem.text ("20470") false, ContentItem.text ("Total") false,
    ContentItem.text ("41") false, ContentItem.text ("5") false,
    ContentItem.text ("12.20 %") false, ContentItem.text ("5") false,
    ContentItem.text ("0") false, ContentItem.text ("4") false,
    ContentItem.text ("1") true ]

/-- A demonstration document: the row above on page 131, nothing on the
other pages. -/
def demoDoc : Nat → List ContentItem :=
  fun pageNum => if pageNum = 131 then demoItems else []

/-- The record assembled from the demonstration row. -/
def demoRec : RawRecord :=
  { Precinct := "20470", City := City.unincorporatedD2, District := District.d2,
    Method := Field.str ("Total"), registeredVoters := JSNum.fin 41,
    ballotsCast := JSNum.fin 5, measureCYes := JSNum.fin 5, measureCNo := JSNum.fin 0,
    measureDYes := JSNum.fin 4, measureDNo := JSNum.fin 1 }

/-- The Measure D frame record the pivot stage builds for the
demonstration document's single Total-method row. -/
def demoFrameRec : FrameRecord :=
  { Precinct := "20470", City := City.unincorporatedD2, District := District.d2,
    registeredVoters := JSNum.fin 41, ballotsCast := JSNum.fin 5,
    yesVoteByMail := none, yesElectionDay := none, yesTotal := some (JSNum.fin 4),
    noVoteByMail := none, noElectionDay := none, noTotal := some (JSNum.fin 1),
    pctNo := some (jsDiv (JSNum.fin 1) (jsAdd (JSNum.fin 1) (JSNum.fin 4))),
    pctYes := some (jsDiv (JSNum.fin 4) (jsAdd (JSNum.fin 1) (JSNum.fin 4))) }

end Getinfo

namespace Getinfo

lemma assignCity_error_shape (p : String) (e : Err)
    (h : assignCity p = Except.error e) : e = Err.invalidPrecinct := by
  unfold assignCity at h
  split at h
  · exact (Except.error.inj h).symm
  · split at h
    · exact (Except.error.inj h).symm
    · split at h
      · split at h
        · split_ifs at h <;> simp_all
        · simp_all
      · simp_all

lemma assignDistrict_error_shape (p : String) (e : Err)
    (h : assignDistrict p = Except.error e) : e = Err.invalidDistrict := by
  unfold assignDistrict at h
  split at h
  · split_ifs at h <;> simp_all
  · exact (Except.error.inj h).symm

/-- C3: the city classifier fails with the Invalid-precinct error exactly
when the identifier has no character at the classification position
(position 1) in the recognized digit set 0-4; classification digit 0
selects the unincorporated sub-unit named by the character at position 0
when that is 1-5 and plain unincorporated otherwise; digits 1-4 map to
Santa Cruz, Capitola, Watsonville and Scotts Valley respectively. -/
theorem assignCity_classification (p : String) :
    (assignCity p = Except.error Err.invalidPrecinct ↔
      ∀ c, charAt p PRECINCT_CITY_DIGIT = some c →
        c ∉ (['0', '1', '2', '3', '4'] : List Char)) ∧
    (charAt p PRECINCT_CITY_DIGIT = some '0' →
      (∀ c, charAt p PRECINCT_COUNTY_DIGIT = some c →
        assignCity p = Except.ok
          (if c = '1' then City.unincorporatedD1
            else if c = '2' then City.unincorporatedD2
            else if c = '3' then City.unincorporatedD3
            else if c = '4' then City.unincorporatedD4
            else if c = '5' then City.unincorporatedD5
            else City.unincorporated)) ∧
      (charAt p PRECINCT_COUNTY_DIGIT = none →
        assignCity p = Except.ok City.unincorporated)) ∧
    (charAt p PRECINCT_CITY_DIGIT = some '1' → assignCity p = Except.ok City.santaCruz) ∧
    (charAt p PRECINCT_CITY_DIGIT = some '2' → assignCity p = Except.ok City.capitola) ∧
    (charAt p PRECINCT_CITY_DIGIT = some '3' → assignCity p = Except.ok City.watsonville) ∧
    (charAt p PRECINCT_CITY_DIGIT = some '4' → assignCity p = Except.ok City.scottsValley) := by
  rcases hc : charAt p PRECINCT_CITY_DIGIT with _ | c
  · simp [assignCity, hc]
  · by_cases e0 : c = '0'
    · subst e0
      refine ⟨⟨?_, ?_⟩, fun _ => ⟨?_, ?_⟩, ?_, ?_, ?_, ?_⟩
      · intro h
        exfalso
        rcases hd : charAt p PRECINCT_COUNTY_DIGIT with _ | d
        · simp [assignCity, hc, hd, digitToCity] at h
        · simp [assignCity, hc, hd, digitToCity] at h
          split_ifs at h <;> simp_all
      · intro h
        exact absurd (h '0' rfl) (by simp)
      · intro d hd
        simp only [assignCity, hc, hd, digitToCity, if_pos rfl]
        split_ifs <;> rfl
      · intro hd
        simp [assignCity, hc, hd, digitToCity]
      all_goals (intro h; exact absurd h (by decide))
    · by_cases e1 : c = '1'
      · subst e1
        refine ⟨⟨?_, ?_⟩, ?_, ?_, ?_, ?_, ?_⟩
        · intro h
          simp [assignCity, hc, digitToCity] at h
        · intro h
          exact absurd (h '1' rfl) (by simp)
        · intro h; exact absurd h (by decide)
        · intro _; simp [assignCity, hc, digitToCity]
        all_goals (intro h; exact absurd h (by decide))
      · by_cases e2 : c = '2'
        · subst e2
          refine ⟨⟨?_, ?_⟩, ?_, ?_, ?_, ?_, ?_⟩
          · intro h
            simp [assignCity, hc, digitToCity] at h
          · intro h
            exact absurd (h '2' rfl) (by simp)
          · intro h; exact absurd h (by decide)
          · intro h; exact absurd h (by decide)
          · intro _; simp [assignCity, hc, digitToCity]
          all_goals (intro h; exact absurd h (by decide))
        · by_cases e3 : c = '3'
          · subst e3
            refine ⟨⟨?_, ?_⟩, ?_, ?_, ?_, ?_, ?_⟩
            · intro h
              simp [assignCity, hc, digitToCity] at h
            · intro h
              exact absurd (h '3' rfl) (by simp)
            · intro h; exact absurd h (by decide)
            · intro h; exact absurd h (by decide)
            · intro h; exact absurd h (by decide)
            · intro _; simp [assignCity, hc, digitToCity]
            · intro h; exact absurd h (by decide)
          · by_cases e4 : c = '4'
            · subst e4
              refine ⟨⟨?_, ?_⟩, ?_, ?_, ?_, ?_, ?_⟩
              · intro h
                simp [assignCity, hc, digitToCity] at h
              · intro h
                exact absurd (h '4' rfl) (by simp)
              · intro h; exact absurd h (by decide)
              · intro h; exact absurd h (by decide)
              · intro h; exact absurd h (by decide)
              · intro h; exact absurd h (by decide)
              · intro _; simp [assignCity, hc, digitToCity]
            · have hnone : digitToCity c = none := by
                simp [digitToCity, e0, e1, e2, e3, e4]
              refine ⟨⟨?_, ?_⟩, ?_, ?_, ?_, ?_, ?_⟩
              · intro _ c' hc'
                obtain rfl : c = c' := Option.some.inj hc'
                simp [e0, e1, e2, e3, e4]
              · intro _
                simp [assignCity, hc, hnone]
              · intro h; exact absurd (Option.some.inj h) e0
              · intro h; exact absurd (Option.some.inj h) e1
              · intro h; exact absurd (Option.some.inj h) e2
              · intro h; exact absurd (Option.some.inj h) e3
              · intro h; exact absurd (Option.some.inj h) e4

/-- C3 witness: on identifier 20470 the classification digit is 0 and the
sub-digit is 2, and the classifier returns the D2 unincorporated area. -/
theorem assignCity_classification_witness :
    assignCity ("20470") = Except.ok City.unincorporatedD2 := by
  have h := ((assignCity_classification ("20470")).2.1 (by rfl)).1 '2' (by rfl)
  simpa using h

/-- C4 (amended): the district classifier keys on the FIRST character of
the identifier (position PRECINCT_COUNTY_DIGIT = 0), not the second:
a first digit 1-5 yields the corresponding district tag, and any other
first character (or a missing one) fails with the Invalid-district
error. -/
theorem assignDistrict_first_digit (p : String) :
    (charAt p PRECINCT_COUNTY_DIGIT = some '1' → assignDistrict p = Except.ok District.d1) ∧
    (charAt p PRECINCT_COUNTY_DIGIT = some '2' → assignDistrict p = Except.ok District.d2) ∧
    (charAt p PRECINCT_COUNTY_DIGIT = some '3' → assignDistrict p = Except.ok District.d3) ∧
    (charAt p PRECINCT_COUNTY_DIGIT = some '4' → assignDistrict p = Except.ok District.d4) ∧
    (charAt p PRECINCT_COUNTY_DIGIT = some '5' → assignDistrict p = Except.ok District.d5) ∧
    (∀ c, charAt p PRECINCT_COUNTY_DIGIT = some c →
      c ∉ (['1', '2', '3', '4', '5'] : List Char) →
      assignDistrict p = Except.error Err.invalidDistrict) ∧
    (charAt p PRECINCT_COUNTY_DIGIT = none →
      assignDistrict p = Except.error Err.invalidDistrict) := by
  refine ⟨?_, ?_, ?_, ?_, ?_, ?_, ?_⟩
  · intro h; simp [assignDistrict, h]
  · intro h; simp [assignDistrict, h]
  · intro h; simp [assignDistrict, h]
  · intro h; simp [assignDistrict, h]
  · intro h; simp [assignDistrict, h]
  · intro c h hmem
    simp only [List.mem_cons, List.not_mem_nil, or_false, not_or] at hmem
    obtain ⟨n1, n2, n3, n4, n5⟩ := hmem
    simp [assignDistrict, h, n1, n2, n3, n4, n5]
  · intro h; simp [assignDistrict, h]

/-- C4 counterexample: the claim reads the group tag off the second digit.
On identifier 10000 the second digit is 0, outside the set 1-5, so the
claim predicts an Invalid-group failure; the code keys on the first digit
and returns D1.  Conversely on 03000 the second digit is 3, so the claim
predicts the tag D3; the code fails on the first digit 0. -/
theorem assignDistrict_second_digit_cex :
    charAt ("10000") 1 = some '0' ∧
    assignDistrict ("10000") = Except.ok District.d1 ∧
    charAt ("03000") 1 = some '3' ∧
    assignDistrict ("03000") = Except.error Err.invalidDistrict := by
  refine ⟨rfl, rfl, rfl, rfl⟩

/-- C4 witness: identifier 20470 has first digit 2 and is assigned the
district tag D2. -/
theorem assignDistrict_first_digit_witness :
    assignDistrict ("20470") = Except.ok District.d2 :=
  (assignDistrict_first_digit ("20470")).2.1 (by rfl)

/-- C5 (amended): the record assembler fails with the wrong-length error
exactly when the field list does not have the expected 9 entries (so in
particular at lengths 8 and 10); on a 9-entry list it never reports a
length error, and it succeeds whenever the identifier in position 0 passes
both field classifiers — but a 9-entry list whose identifier fails a
classifier makes the assembler fail with that classifier's error, so it is
not total on all length-9 inputs. -/
theorem assignRecordFromArray_arity (record : List Field) :
    (assignRecordFromArray record = Except.error Err.wrongLength ↔ record.length ≠ 9) ∧
    (record.length = 9 →
      ∀ p city district,
        record[0]? = some (Field.str p) →
        assignCity p = Except.ok city →
        assignDistrict p = Except.ok district →
        ∃ r, assignRecordFromArray record = Except.ok r ∧
          r.Precinct = p ∧ r.City = city ∧ r.District = district) := by
  by_cases hlen : record.length = 9
  · obtain ⟨f0, f1, f2, f3, f4, f5, f6, f7, f8, hrec⟩ :
        ∃ f0 f1 f2 f3 f4 f5 f6 f7 f8,
          record = [f0, f1, f2, f3, f4, f5, f6, f7, f8] := by
      rcases record with _ | ⟨f0, _ | ⟨f1, _ | ⟨f2, _ | ⟨f3, _ | ⟨f4, _ | ⟨f5,
        _ | ⟨f6, _ | ⟨f7, _ | ⟨f8, _ | ⟨f9, rest⟩⟩⟩⟩⟩⟩⟩⟩⟩⟩ <;>
        simp_all
    subst hrec
    constructor
    · simp only [hlen, ne_eq, not_true_eq_false, iff_false]
      intro h
      rcases f0 with s | n
      · rcases hcity : assignCity s with ec | city
        · simp [assignRecordFromArray, hcity] at h
          simp [assignCity_error_shape s ec hcity] at h
        · rcases hdist : assignDistrict s with ed | district
          · simp [assignRecordFromArray, hcity, hdist] at h
            simp [assignDistrict_error_shape s ed hdist] at h
          · simp [assignRecordFromArray, hcity, hdist] at h
      · simp [assignRecordFromArray] at h
    · intro _ p city district h0 hcity hdistrict
      have hf0 : f0 = Field.str p := by simpa using h0
      subst hf0
      refine ⟨{ Precinct := p, City := city, District := district, Method := f1,
                registeredVoters := parseIntJS f2, ballotsCast := parseIntJS f3,
                measureCYes := parseIntJS f5, measureCNo := parseIntJS f6,
                measureDYes := parseIntJS f7, measureDNo := parseIntJS f8 },
        ?_, rfl, rfl, rfl⟩
      simp [assignRecordFromArray, hcity, hdistrict]
  · constructor
    · simp only [hlen, ne_eq, not_false_eq_true, iff_true]
      unfold assignRecordFromArray
      rw [if_pos hlen]
    · intro h
      exact absurd h hlen

/-- C5 counterexample: a 9-field list whose identifier has classification
digit 9, outside the recognized set, makes the assembler throw the
Invalid-precinct classifier error, so the assembler is not a total
function on every length-9 input. -/
theorem assignRecordFromArray_classifier_cex :
    ([Field.str ("99999"), Field.str ("Total"), Field.str ("1"), Field.str ("1"),
        Field.str ("100.00 %"), Field.str ("1"), Field.str ("0"), Field.str ("1"),
        Field.str ("0")] : List Field).length = 9 ∧
    assignRecordFromArray
      [Field.str ("99999"), Field.str ("Total"), Field.str ("1"), Field.str ("1"),
        Field.str ("100.00 %"), Field.str ("1"), Field.str ("0"), Field.str ("1"),
        Field.str ("0")] = Except.error Err.invalidPrecinct := by
  refine ⟨rfl, rfl⟩

/-- C5 witness: a length-9 row with a valid identifier assembles, and a
length-8 row is rejected with the wrong-length error. -/
theorem assignRecordFromArray_arity_witness :
    (∃ r, assignRecordFromArray
        [Field.str ("20470"), Field.str ("Total"), Field.str ("41"), Field.str ("5"),
          Field.str ("12.20 %"), Field.str ("5"), Field.str ("0"), Field.str ("4"),
          Field.str ("1")] = Except.ok r ∧
        r.Precinct = "20470" ∧ r.City = City.unincorporatedD2 ∧ r.District = District.d2) ∧
    assignRecordFromArray
      [Field.str ("20470"), Field.str ("Total"), Field.str ("41"), Field.str ("5"),
        Field.str ("12.20 %"), Field.str ("5"), Field.str ("0"), Field.str ("4")] =
      Except.error Err.wrongLength := by
  constructor
  · exact (assignRecordFromArray_arity _).2 (by rfl) ("20470") City.unincorporatedD2
      District.d2 (by rfl) (by rfl) (by rfl)
  · exact ((assignRecordFromArray_arity _).1).mpr (by decide)

/-- C8 (amended): the blank-field strip removes exactly the fields that
are the empty string or a single space; a field occurs in the stripped
sequence the repair rules examine precisely when it occurs in the group
and is neither of those two strings.  Whitespace-only fields of any other
shape (two spaces, a tab) are NOT removed. -/
theorem strip_blank_fields (group : List String) (f : String) :
    f ∈ stripRecord group ↔ f ∈ group ∧ f ≠ "" ∧ f ≠ " " := by
  simp [stripRecord, List.mem_filter, and_assoc]

/-- C8 counterexample: a two-space field consists only of whitespace
characters yet survives the strip, so not every whitespace-only field is
removed. -/
theorem strip_whitespace_cex :
    stripRecord ["  "] = ["  "] ∧
    ("  ").data.all Char.isWhitespace = true ∧
    ("  ") ≠ "" := by
  refine ⟨rfl, rfl, by decide⟩

/-- C8 witness: an ordinary field passes through the strip while an empty
field and a single-space field are removed with it present. -/
theorem strip_blank_fields_witness :
    ("41") ∈ stripRecord ["", " ", "41"] :=
  (strip_blank_fields ["", " ", "41"] ("41")).mpr (by decide)

/-- C9 (amended): a 4-field group with a recognized method and zeros in
fields 3 and 4 triggers the unreported-precinct rule, which assembles the
synthesized array with zero counts, NaN measure fields and turnout forced
to 0.00 percent; when the identifier passes both classifiers this yields
the stated record (with classifier failures propagating otherwise, so the
claim's unconditional form does not hold). -/
theorem unreported_precinct_rule (r0 r1 : String) (city : City) (district : District)
    (hc : assignCity r0 = Except.ok city) (hd : assignDistrict r0 = Except.ok district)
    (hm : validMethods.contains r1 = true) :
    applyRules [r0, r1, "0", "0"] =
      (assignRecordFromArray (unreportedRow r0 r1)).map Entity.record ∧
    applyRules [r0, r1, "0", "0"] =
      Except.ok (Entity.record
        { Precinct := r0, City := city, District := district, Method := Field.str r1,
          registeredVoters := JSNum.fin 0, ballotsCast := JSNum.fin 0,
          measureCYes := JSNum.nan, measureCNo := JSNum.nan,
          measureDYes := JSNum.nan, measureDNo := JSNum.nan }) := by
  have h1 : applyRules [r0, r1, "0", "0"] =
      (assignRecordFromArray (unreportedRow r0 r1)).map Entity.record := by
    unfold applyRules
    rw [if_neg (by simp)]
    rw [if_neg (by
      simp [methodRecognized]
      exact List.mem_of_elem_eq_true hm)]
    rw [if_pos (by simp)]
    rfl
  refine ⟨h1, ?_⟩
  rw [h1]
  have h0 : parseIntJS (Field.num (JSNum.fin 0)) = JSNum.fin 0 := by decide
  simp [assignRecordFromArray, unreportedRow, hc, hd, h0, parseIntJS, Except.map]

/-- C9 counterexample: the group 99999/Total/0/0 is a 4-field group with a
recognized method and zero third and fourth fields, but its identifier has
classification digit 9, so rule 3's assembly throws the Invalid-precinct
error instead of producing a Raw Record. -/
theorem unreported_precinct_invalid_id_cex :
    applyRules ["99999", "Total", "0", "0"] = Except.error Err.invalidPrecinct := by
  rfl

/-- C9 witness: the spec's own scenario group 20470/Total/0/0 assembles to
the unreported-precinct record. -/
theorem unreported_precinct_rule_witness :
    applyRules ["20470", "Total", "0", "0"] =
      Except.ok (Entity.record
        { Precinct := "20470", City := City.unincorporatedD2, District := District.d2,
          Method := Field.str ("Total"), registeredVoters := JSNum.fin 0,
          ballotsCast := JSNum.fin 0, measureCYes := JSNum.nan,
          measureCNo := JSNum.nan, measureDYes := JSNum.nan,
          measureDNo := JSNum.nan }) :=
  (unreported_precinct_rule ("20470") ("Total") City.unincorporatedD2 District.d2
    (by rfl) (by rfl) (by rfl)).2

lemma groupStep_eol (recs : List (List String)) (buf : List String) (s : String) :
    groupStep (recs, buf) (ContentItem.text s true) =
      if 2 < (buf ++ [s]).length ∧ matchesFiveDigits ((buf ++ [s]).headD ("")) = true
        then (recs ++ [buf ++ [s]], []) else (recs, []) := by
  simp [groupStep]

lemma groupStep_noeol (recs : List (List String)) (buf : List String) (s : String) :
    groupStep (recs, buf) (ContentItem.text s false) = (recs, buf ++ [s]) := by
  simp [groupStep]

lemma groupStep_fold_sound (items : List ContentItem) :
    ∀ recs buf g, g ∈ (items.foldl groupStep (recs, buf)).1 →
      g ∈ recs ∨ (2 < g.length ∧ matchesFiveDigits (g.headD ("")) = true) := by
  induction items with
  | nil => exact fun recs buf g hg => Or.inl hg
  | cons i items ih =>
    intro recs buf g hg
    rcases i with ⟨s, eol⟩ | _
    · rcases eol
      · simp only [List.foldl_cons, groupStep] at hg
        exact ih _ _ g hg
      · by_cases hcond : 2 < (buf ++ [s]).length ∧
            matchesFiveDigits ((buf ++ [s]).headD ("")) = true
        · simp only [List.foldl_cons, groupStep, if_pos hcond] at hg
          rcases ih _ _ g hg with hmem | hgood
          · rcases List.mem_append.mp hmem with hr | hnew
            · exact Or.inl hr
            · obtain rfl : g = buf ++ [s] := by simpa using hnew
              exact Or.inr hcond
          · exact Or.inr hgood
        · simp only [List.foldl_cons, groupStep, if_neg hcond] at hg
          exact ih _ _ g hg
    · simp only [List.foldl_cons, groupStep] at hg
      exact ih _ _ g hg

/-- C6 (amended): a group closed at an end-of-line token is retained only
if it has more than 2 tokens and its first token CONTAINS a run of five
consecutive decimal digits (the pattern is unanchored, so the run need not
be at the start); every retained group satisfies this, a passing closure
appends exactly the buffered group, and the buffer is reset to empty after
every closure, accepted or rejected. -/
theorem run_grouper_retention (items : List ContentItem) :
    (∀ g ∈ pageRecords items, 2 < g.length ∧ matchesFiveDigits (g.headD ("")) = true) ∧
    (∀ st : List (List String) × List String, ∀ s,
      (groupStep st (ContentItem.text s true)).2 = []) ∧
    (∀ recs buf s, 2 < (buf ++ [s]).length →
      matchesFiveDigits ((buf ++ [s]).headD ("")) = true →
      (groupStep (recs, buf) (ContentItem.text s true)).1 = recs ++ [buf ++ [s]]) := by
  refine ⟨?_, ?_, ?_⟩
  · intro g hg
    rcases groupStep_fold_sound items [] [] g hg with hmem | hgood
    · exact absurd hmem (by simp)
    · exact hgood
  · intro st s
    rcases st with ⟨recs, buf⟩
    rw [groupStep_eol]
    split <;> rfl
  · intro recs buf s h1 h2
    rw [groupStep_eol, if_pos (And.intro h1 h2)]

/-- C6 counterexample: the token x12345 does not start with a digit, yet
the closed group x12345/a/b is retained, because the five-digit pattern is
matched anywhere inside the first token, not only at its start. -/
theorem run_grouper_unanchored_cex :
    pageRecords [ContentItem.text ("x12345") false, ContentItem.text ("a") false,
        ContentItem.text ("b") true] = [["x12345", "a", "b"]] ∧
    (("x12345").data.headD ' ').isDigit = false := by
  refine ⟨rfl, rfl⟩

/-- C6 witness: the retained group 12345/a/b has more than 2 tokens and a
five-digit run in its first token. -/
theorem run_grouper_retention_witness :
    2 < (["12345", "a", "b"] : List String).length ∧
    matchesFiveDigits ((["12345", "a", "b"] : List String).headD ("")) = true :=
  (run_grouper_retention [ContentItem.text ("12345") false, ContentItem.text ("a") false,
    ContentItem.text ("b") true]).1 (["12345", "a", "b"]) (by decide)

lemma foldl_groupStep_shift (items : List ContentItem) :
    ∀ recs buf,
      (items.foldl groupStep (recs, buf)).1 = recs ++ (items.foldl groupStep ([], buf)).1 ∧
      (items.foldl groupStep (recs, buf)).2 = (items.foldl groupStep ([], buf)).2 := by
  induction items with
  | nil => intro recs buf; simp
  | cons i items ih =>
    intro recs buf
    rcases i with ⟨s, eol⟩ | _
    · rcases eol
      · simp only [List.foldl_cons, groupStep_noeol]
        exact ih recs (buf ++ [s])
      · by_cases hcond : 2 < (buf ++ [s]).length ∧
            matchesFiveDigits ((buf ++ [s]).headD ("")) = true
        · simp only [List.foldl_cons, groupStep_eol, if_pos hcond]
          constructor
          · rw [(ih (recs ++ [buf ++ [s]]) []).1, (ih ([] ++ [buf ++ [s]]) []).1]
            simp
          · rw [(ih (recs ++ [buf ++ [s]]) []).2, (ih ([] ++ [buf ++ [s]]) []).2]
        · simp only [List.foldl_cons, groupStep_eol, if_neg hcond]
          constructor
          · rw [(ih recs []).1]
          · exact (ih recs []).2
    · simp only [List.foldl_cons, groupStep]
      exact ih recs buf

lemma pages_fold (doc : Nat → List ContentItem) (ns : List Nat) :
    ∀ acc,
      ns.foldl (fun records pageNum => ((doc pageNum).foldl groupStep (records, [])).1) acc =
        acc ++ (ns.map (fun n => pageRecords (doc n))).join := by
  induction ns with
  | nil => intro acc; simp
  | cons n ns ih =>
    intro acc
    simp only [List.foldl_cons, List.map_cons, List.join]
    rw [ih, (foldl_groupStep_shift (doc n) acc []).1]
    simp [pageRecords, List.append_assoc]

lemma fold_no_eol (tail : List ContentItem) :
    ∀ st : List (List String) × List String,
      (∀ i ∈ tail, ContentItem.isEOL i = false) →
      (tail.foldl groupStep st).1 = st.1 := by
  induction tail with
  | nil => intro st _; rfl
  | cons i tail ih =>
    intro st h
    have hi := h i (by simp)
    have ht : ∀ j ∈ tail, ContentItem.isEOL j = false := fun j hj => h j (by simp [hj])
    rcases i with ⟨s, eol⟩ | _
    · rcases eol
      · simp only [List.foldl_cons, groupStep]
        exact ih _ ht
      · simp [ContentItem.isEOL] at hi
    · simp only [List.foldl_cons, groupStep]
      exact ih _ ht

/-- C10: the extractor reads exactly pages 131 through 136 in increasing
order: its output is the concatenation of the per-page groups over that
fixed page list, two documents agreeing on those six pages produce the
same groups whatever the rest of the document holds, and tokens buffered
after the last end-of-line flag of a page are discarded when the page
ends. -/
theorem page_window (doc doc2 : Nat → List ContentItem) :
    extractRawGroups doc = (pageNums.map (fun n => pageRecords (doc n))).join ∧
    pageNums = [131, 132, 133, 134, 135, 136] ∧
    ((∀ n ∈ pageNums, doc n = doc2 n) → extractRawGroups doc = extractRawGroups doc2) ∧
    (∀ items tail, (∀ i ∈ tail, ContentItem.isEOL i = false) →
      pageRecords (items ++ tail) = pageRecords items) := by
  have hjoin : ∀ d : Nat → List ContentItem,
      extractRawGroups d = (pageNums.map (fun n => pageRecords (d n))).join := by
    intro d
    unfold extractRawGroups
    rw [pages_fold d pageNums []]
    simp
  refine ⟨hjoin doc, rfl, ?_, ?_⟩
  · intro h
    rw [hjoin doc, hjoin doc2]
    have hmap : pageNums.map (fun n => pageRecords (doc n)) =
        pageNums.map (fun n => pageRecords (doc2 n)) := by
      apply List.map_congr_left
      intro n hn
      rw [h n hn]
    rw [hmap]
  · intro items tail h
    unfold pageRecords
    rw [List.foldl_append, fold_no_eol tail _ h]

/-- C10 witness: a page's trailing token with no end-of-line flag does not
change the page's groups. -/
theorem page_window_witness :
    pageRecords
        ([ContentItem.text ("12345") false, ContentItem.text ("a") false,
          ContentItem.text ("b") true] ++ [ContentItem.text ("junk") false]) =
      pageRecords
        [ContentItem.text ("12345") false, ContentItem.text ("a") false,
          ContentItem.text ("b") true] :=
  (page_window (fun _ => []) (fun _ => [])).2.2.2 _ _ (by decide)

lemma jsEq_right_unique (v a b : JSNum) (ha : jsEqNum v a = true)
    (hb : jsEqNum v b = true) : a = b := by
  cases v <;> cases a <;> cases b <;> simp_all [jsEqNum]

lemma matchesFixed_key (record : List String) (a b : RawRecord)
    (ha : matchesFixed record a = true) (hb : matchesFixed record b = true) :
    a.Precinct = b.Precinct ∧ a.Method = b.Method ∧
      a.registeredVoters = b.registeredVoters ∧ a.ballotsCast = b.ballotsCast := by
  simp only [matchesFixed, Bool.and_eq_true, decide_eq_true_eq] at ha hb
  obtain ⟨⟨⟨ha0, ha1⟩, ha2⟩, ha3⟩ := ha
  obtain ⟨⟨⟨hb0, hb1⟩, hb2⟩, hb3⟩ := hb
  refine ⟨?_, ?_, ?_, ?_⟩
  · exact Option.some.inj (ha0.symm.trans hb0)
  · exact Option.some.inj (ha1.symm.trans hb1)
  · exact jsEq_right_unique _ _ _ ha2 hb2
  · exact jsEq_right_unique _ _ _ ha3 hb3

lemma find_matches_unique (record : List String) (l : List RawRecord) (e : RawRecord)
    (hkey : ∀ x ∈ l, ∀ y ∈ l,
      (x.Precinct = y.Precinct ∧ x.Method = y.Method ∧
        x.registeredVoters = y.registeredVoters ∧ x.ballotsCast = y.ballotsCast) → x = y)
    (he : e ∈ l) (hm : matchesFixed record e = true) :
    l.find? (matchesFixed record) = some e := by
  induction l with
  | nil => cases he
  | cons a l ih =>
    cases hma : matchesFixed record a
    · have hel : e ∈ l := by
        rcases List.mem_cons.mp he with rfl | hl
        · rw [hm] at hma; cases hma
        · exact hl
      rw [List.find?_cons_of_neg _ (by simp [hma])]
      exact ih (fun x hx y hy => hkey x (List.mem_cons_of_mem _ hx)
        y (List.mem_cons_of_mem _ hy)) hel
    · have hae : a = e :=
        hkey a (List.mem_cons_self _ _) e he (matchesFixed_key record a e hma hm)
      rw [List.find?_cons_of_pos _ hma, hae]

lemma manuallyFixedRecords_keys :
    ∀ x ∈ manuallyFixedRecords, ∀ y ∈ manuallyFixedRecords,
      (x.Precinct = y.Precinct ∧ x.Method = y.Method ∧
        x.registeredVoters = y.registeredVoters ∧ x.ballotsCast = y.ballotsCast) →
      x = y := by
  decide

/-- C7: a blank-stripped candidate group that reaches the correction-table
rule (not length 9, recognized method, matching neither the length-4 nor
the length-5 shape rule) and whose identifier, method, parsed registered
count and parsed cast count strictly equal a Correction Entry's fields is
resolved to exactly that entry's assembled record; the table's ten entries
have pairwise distinct match keys, so the first-match lookup returns the
matching entry itself. -/
theorem correction_roundtrip (record : List String) (e : RawRecord)
    (hlen : record.length ≠ 9)
    (hm : methodRecognized record = true)
    (h3 : ¬(record.length = 4 ∧ record[2]? = some ("0") ∧ record[3]? = some ("0")))
    (h4 : ¬(record.length = 5 ∧ record[4]? = some ("0.00 %")))
    (he : e ∈ manuallyFixedRecords)
    (hmatch : matchesFixed record e = true) :
    applyRules record = Except.ok (Entity.record e) := by
  unfold applyRules
  rw [if_neg hlen, if_neg (by simp [hm]), if_neg h3, if_neg h4,
    find_matches_unique record manuallyFixedRecords e manuallyFixedRecords_keys he hmatch]

/-- C7 witness: an 8-field malformed group carrying the first correction
entry's identifier, method and counts resolves to exactly that entry's
record. -/
theorem correction_roundtrip_witness :
    applyRules ["20470", "Vote by Mail", "41", "5", "12.20 %", "5", "0", "4"] =
      Except.ok (Entity.record manualFixVbm20470) :=
  correction_roundtrip ["20470", "Vote by Mail", "41", "5", "12.20 %", "5", "0", "4"]
    manualFixVbm20470 (by decide) (by decide) (by decide) (by decide) (by decide)
    (by decide)

lemma pivot_fold_keys (es : List Entity) :
    ∀ (st : Frame × Frame) (k : String),
      (((es.foldl pivotStep st).1 k).isSome = true →
        (st.1 k).isSome = true ∨ ∃ r, Entity.record r ∈ es ∧ r.Precinct = k) ∧
      (((es.foldl pivotStep st).2 k).isSome = true →
        (st.2 k).isSome = true ∨ ∃ r, Entity.record r ∈ es ∧ r.Precinct = k) := by
  induction es with
  | nil => exact fun st k => ⟨fun h => Or.inl h, fun h => Or.inl h⟩
  | cons e es ih =>
    intro st k
    rcases e with r | fields
    · constructor
      · intro h
        rcases (ih (pivotStep st (Entity.record r)) k).1 h with hst | ⟨r2, hr2, hk⟩
        · by_cases hkey : k = r.Precinct
          · exact Or.inr ⟨r, List.mem_cons_self _ _, hkey.symm⟩
          · refine Or.inl ?_
            simpa [pivotStep, frameInsert, hkey] using hst
        · exact Or.inr ⟨r2, List.mem_cons_of_mem _ hr2, hk⟩
      · intro h
        rcases (ih (pivotStep st (Entity.record r)) k).2 h with hst | ⟨r2, hr2, hk⟩
        · by_cases hkey : k = r.Precinct
          · exact Or.inr ⟨r, List.mem_cons_self _ _, hkey.symm⟩
          · refine Or.inl ?_
            simpa [pivotStep, frameInsert, hkey] using hst
        · exact Or.inr ⟨r2, List.mem_cons_of_mem _ hr2, hk⟩
    · constructor
      · intro h
        rcases (ih st k).1 h with hst | ⟨r2, hr2, hk⟩
        · exact Or.inl hst
        · exact Or.inr ⟨r2, List.mem_cons_of_mem _ hr2, hk⟩
      · intro h
        rcases (ih st k).2 h with hst | ⟨r2, hr2, hk⟩
        · exact Or.inl hst
        · exact Or.inr ⟨r2, List.mem_cons_of_mem _ hr2, hk⟩

/-- C1: every entity in the collection returned by the extraction is a
typed record (raw arrays are filtered out at the pipeline boundary), and
every key of either final Frame is contributed by a typed record of that
collection — never by an unresolved raw array. -/
theorem extract_only_typed_records (doc : Nat → List ContentItem)
    (entities : List Entity)
    (h : extractRecordsEntities doc = Except.ok entities) :
    (∀ e ∈ entities, ∃ r, e = Entity.record r) ∧
    (∀ k, (((measureFrames entities).1 k).isSome = true ∨
        ((measureFrames entities).2 k).isSome = true) →
      ∃ r, Entity.record r ∈ entities ∧ r.Precinct = k) := by
  constructor
  · intro e he
    have hfilter : e.isArr = false := by
      unfold extractRecordsEntities at h
      rcases hmap : ((extractRawGroups doc).map stripRecord).mapM applyRules with
        err | cleaner <;> rw [hmap] at h
      · cases h
      · have hent : entities = cleaner.filter (fun record => !record.isArr) :=
          (Except.ok.inj h).symm
        subst hent
        have := (List.mem_filter.mp he).2
        simpa using this
    rcases e with r | fields
    · exact ⟨r, rfl⟩
    · simp [Entity.isArr] at hfilter
  · intro k hk
    have hsome :
        ((entities.foldl pivotStep (emptyFrame, emptyFrame)).1 k).isSome = true ∨
        ((entities.foldl pivotStep (emptyFrame, emptyFrame)).2 k).isSome = true := by
      rcases hk with h1 | h2
      · exact Or.inl (by simpa [measureFrames, applyPercents] using h1)
      · exact Or.inr (by simpa [measureFrames, applyPercents] using h2)
    rcases hsome with h1 | h2
    · rcases (pivot_fold_keys entities (emptyFrame, emptyFrame) k).1 h1 with habs | hgood
      · simp [emptyFrame] at habs
      · exact hgood
    · rcases (pivot_fold_keys entities (emptyFrame, emptyFrame) k).2 h2 with habs | hgood
      · simp [emptyFrame] at habs
      · exact hgood

/-- C1 witness: the demonstration document extracts to exactly the one
typed record, which the theorem certifies is a record. -/
theorem extract_only_typed_records_witness :
    ∃ r, Entity.record demoRec = Entity.record r :=
  (extract_only_typed_records demoDoc [Entity.record demoRec] (by rfl)).1
    (Entity.record demoRec) (by simp)

lemma fieldNum_some (n : JSNum) : fieldNum (some n) = n := rfl

lemma jsAdd_fin (a b : ℚ) : jsAdd (JSNum.fin a) (JSNum.fin b) = JSNum.fin (a + b) := rfl

lemma jsDiv_fin (a b : ℚ) (h : b ≠ 0) :
    jsDiv (JSNum.fin a) (JSNum.fin b) = JSNum.fin (a / b) := by
  simp [jsDiv, h]

/-- C2: for every frame record produced by the reshape/pivot stage whose
NO and YES totals are both defined finite numbers with nonzero sum, the
two derived ratio columns are the exact quotients and add up to exactly 1
(in the rational-number model of JavaScript arithmetic, where the IEEE
identity holds without rounding). -/
theorem pct_fields_sum_to_one (es : List Entity) (k : String) (r : FrameRecord)
    (no yes : ℚ)
    (h : (measureFrames es).1 k = some r ∨ (measureFrames es).2 k = some r)
    (hno : r.noTotal = some (JSNum.fin no))
    (hyes : r.yesTotal = some (JSNum.fin yes))
    (hsum : no + yes ≠ 0) :
    r.pctNo = some (JSNum.fin (no / (no + yes))) ∧
    r.pctYes = some (JSNum.fin (yes / (no + yes))) ∧
    jsAdd (fieldNum r.pctNo) (fieldNum r.pctYes) = JSNum.fin 1 := by
  have hr : ∃ r0 : FrameRecord,
      r = { r0 with
              pctNo := some (jsDiv (fieldNum r0.noTotal)
                (jsAdd (fieldNum r0.noTotal) (fieldNum r0.yesTotal)))
              pctYes := some (jsDiv (fieldNum r0.yesTotal)
                (jsAdd (fieldNum r0.noTotal) (fieldNum r0.yesTotal))) } := by
    rcases h with h | h <;>
    · simp only [measureFrames, applyPercents, Option.map_eq_some'] at h
      rcases h with ⟨r0, _, hr0⟩
      exact ⟨r0, hr0.symm⟩
  obtain ⟨r0, rfl⟩ := hr
  have hno' : r0.noTotal = some (JSNum.fin no) := hno
  have hyes' : r0.yesTotal = some (JSNum.fin yes) := hyes
  refine ⟨?_, ?_, ?_⟩
  · simp [hno', hyes', fieldNum_some, jsAdd_fin, jsDiv_fin _ _ hsum]
  · simp [hno', hyes', fieldNum_some, jsAdd_fin, jsDiv_fin _ _ hsum]
  · simp [hno', hyes', fieldNum_some, jsAdd_fin, jsDiv_fin _ _ hsum]
    rw [div_add_div_same, div_self hsum]

/-- C2 witness: for the demonstration record (NO total 1, YES total 4) the
ratio columns are 1/5 and 4/5 and add up to exactly 1. -/
theorem pct_fields_sum_to_one_witness :
    demoFrameRec.pctNo = some (JSNum.fin (1 / (1 + 4))) ∧
    demoFrameRec.pctYes = some (JSNum.fin (4 / (1 + 4))) ∧
    jsAdd (fieldNum demoFrameRec.pctNo) (fieldNum demoFrameRec.pctYes) = JSNum.fin 1 :=
  pct_fields_sum_to_one [Entity.record demoRec] ("20470") demoFrameRec 1 4
    (Or.inl (by rfl)) (by rfl) (by rfl) (by norm_num)

end Getinfo
